import Mathlib

/-!
Shallow embedding of the ooi compute front-end: the error-translation
helpers and the request builders of `ooi/api/helpers.py`, and the compute
controller of `ooi/api/compute.py`.  Backend (nova) interaction is modelled
as a function from requests to responses; calls issued to the backend are
returned alongside results so that atomicity properties can be stated.
-/

/-- JSON values, as carried in webob request/response bodies.  Object
fields are kept in insertion order, matching Python dict semantics. -/
inductive Json : Type where
  | null : Json
  | str : String → Json
  | num : Int → Json
  | arr : List Json → Json
  | obj : List (String × Json) → Json

/-- First value bound to a key in an association list; Python `dict.get`
with no default. -/
def lookupField {α : Type} : List (String × α) → String → Option α
  | [], _ => none
  | (k, v) :: rest, key => if k = key then some v else lookupField rest key

/-- Python `d[k] = v` on an insertion-ordered dict: overwrite in place if
the key exists, append otherwise. -/
def setField : List (String × Json) → String → Json → List (String × Json)
  | [], k, v => [(k, v)]
  | (k', v') :: rest, k, v =>
    if k' = k then (k, v) :: rest else (k', v') :: setField rest k v

/-- The webob.exc exception classes appearing in `helpers.py`. -/
inductive WebobExc : Type where
  | HTTPBadRequest | HTTPUnauthorized | HTTPForbidden | HTTPNotFound
  | HTTPMethodNotAllowed | HTTPNotAcceptable | HTTPConflict
  | HTTPRequestEntityTooLarge | HTTPUnsupportedMediaType
  | HTTPTooManyRequests | HTTPNotImplemented | HTTPServiceUnavailable
  | HTTPInternalServerError
  deriving DecidableEq

/-- A webob exception value: the class together with the `explanation`
keyword argument it was constructed with (`none` when the bare class is
returned or no explanation is passed). -/
structure WebobExcInstance : Type where
  kind : WebobExc
  explanation : Option Json

/-- Python exceptions that the embedded code can raise. -/
inductive PyError : Type where
  | keyError
  | typeError
  | indexError
  | jsonDecodeError
  | invalidAction (action : Option String)
  | notImplementedError
  | webobExc (e : WebobExcInstance)

/-- A backend (nova) response: its integer status and its body.  The body
is `Except.error ()` when `response.json_body` raises (not valid JSON). -/
structure Response : Type where
  status_int : Nat
  json_body : Except Unit Json

/-- A request issued to the backend through `BaseHelper._get_req`: the
fields the claims are about (method, path, JSON body if any). -/
structure OSRequest : Type where
  method : String
  path : String
  body : Option Json

/-- The fault-message extraction attempted by `exception_from_response`:
`response.json_body.popitem()[1].get("message")`.  `popitem` pops the last
inserted item of the dict; any failure on the way (body not JSON, body not
a dict, empty dict, popped value not a dict) raises, which the caller
catches. -/
def faultMessage (r : Response) : Except Unit (Option Json) :=
  match r.json_body with
  | .error _ => .error ()
  | .ok (.obj fields) =>
    match fields.getLast? with
    | some (_, .obj sub) => .ok (lookupField sub "message")
    | some _ => .error ()
    | none => .error ()
  | .ok _ => .error ()

/-- The `exceptions` table of `exception_from_response`, keyed by status
code. -/
def statusExceptionMap : List (Nat × WebobExc) :=
  [(400, .HTTPBadRequest), (401, .HTTPUnauthorized), (403, .HTTPForbidden),
   (404, .HTTPNotFound), (405, .HTTPMethodNotAllowed),
   (406, .HTTPNotAcceptable), (409, .HTTPConflict),
   (413, .HTTPRequestEntityTooLarge), (415, .HTTPUnsupportedMediaType),
   (429, .HTTPTooManyRequests), (501, .HTTPNotImplemented),
   (503, .HTTPServiceUnavailable)]

/-- Lookup in a Nat-keyed association list (`dict.get(code, default)` is
then `(lookupStatus ... code).getD default`). -/
def lookupStatus : List (Nat × WebobExc) → Nat → Option WebobExc
  | [], _ => none
  | (k, v) :: rest, key => if k = key then some v else lookupStatus rest key

/-- `helpers.exception_from_response`: convert an OpenStack fault response
into a webob exception.  If extracting the message raises, the bare
`HTTPInternalServerError` class is returned; otherwise the class mapped
from the status code (defaulting to `HTTPInternalServerError`) is
instantiated with the message as explanation. -/
def exception_from_response (r : Response) : WebobExcInstance :=
  match faultMessage r with
  | .error _ => ⟨.HTTPInternalServerError, none⟩
  | .ok msg => ⟨(lookupStatus statusExceptionMap r.status_int).getD
                  .HTTPInternalServerError, msg⟩

/-- `BaseHelper.get_from_response`: extract `element` from the JSON body
(with `default` when absent) when the status is 200, 201 or 202, raise the
exception derived from the response otherwise.  On a 2xx status,
`response.json_body.get(element, default)` itself raises when the body is
not valid JSON or not a dict. -/
def get_from_response (r : Response) (element : String) (default : Json) :
    Except PyError Json :=
  if r.status_int = 200 ∨ r.status_int = 201 ∨ r.status_int = 202 then
    match r.json_body with
    | .ok (.obj fields) => .ok ((lookupField fields element).getD default)
    | .ok _ => .error .typeError
    | .error _ => .error .jsonDecodeError
  else
    .error (.webobExc (exception_from_response r))

/-- The backend application: `os_req.get_response(self.app)` is modelled as
applying this function to the request built by `_get_req`. -/
def App : Type := OSRequest → Response

/-- `OpenStackHelper._get_index_req`: GET `/<tenant>/servers`. -/
def OpenStackHelper.get_index_req (tenant : String) : OSRequest :=
  ⟨"GET", "/" ++ tenant ++ "/servers", none⟩

/-- `OpenStackHelper.index`: list the servers of a tenant, extracting the
`servers` element (default `[]`) from the backend's response. -/
def OpenStackHelper.index (app : App) (tenant : String) :
    Except PyError Json :=
  get_from_response (app (OpenStackHelper.get_index_req tenant)) "servers"
    (.arr [])

/-- The `actions_map` table of `OpenStackHelper._get_run_action_req`,
with each native action body as produced by `json.dumps`. -/
def actions_map : List (String × Json) :=
  [("stop", .obj [("os-stop", .null)]),
   ("start", .obj [("os-start", .null)]),
   ("restart", .obj [("reboot", .obj [("type", .str "SOFT")])])]

/-- `OpenStackHelper._get_run_action_req`: POST to
`/<tenant>/servers/<server_id>/action` with the translated native action
as body; `actions_map[action]` raises `KeyError` on any other action. -/
def OpenStackHelper.get_run_action_req (tenant action server_id : String) :
    Except PyError OSRequest :=
  match lookupField actions_map action with
  | none => .error .keyError
  | some body =>
    .ok ⟨"POST", "/" ++ tenant ++ "/servers/" ++ server_id ++ "/action",
         some body⟩

/-- `OpenStackHelper.run_action`: run an action on a server, raising the
mapped exception unless the backend answers 202.  The second component
lists the backend requests issued. -/
def OpenStackHelper.run_action (app : App)
    (tenant action server_id : String) :
    Except PyError Unit × List OSRequest :=
  match OpenStackHelper.get_run_action_req tenant action server_id with
  | .error e => (.error e, [])
  | .ok os_req =>
    ((if (app os_req).status_int ≠ 202 then
        .error (.webobExc (exception_from_response (app os_req)))
      else .ok ()),
     [os_req])

/-- `OpenStackHelper._get_create_server_req`: POST to `/<tenant>/servers`
with a `server` object holding name, imageRef and flavorRef; a
`user_data` field is added only when the `user_data` argument is not
None. -/
def OpenStackHelper.get_create_server_req (tenant : String)
    (name image flavor : Json) (user_data : Option Json) : OSRequest :=
  ⟨"POST", "/" ++ tenant ++ "/servers",
   some (.obj [("server",
     .obj ([("name", name), ("imageRef", image), ("flavorRef", flavor)] ++
       (match user_data with
        | some u => [("user_data", u)]
        | none => [])))])⟩

/-- `OpenStackHelper.create_server`: create a server and extract the
`server` element (default `{}`) from the backend's response.  The source
passes `user_data=None` to `_get_create_server_req`, so the argument never
reaches the request body.  The second component lists the backend requests
issued. -/
def OpenStackHelper.create_server (app : App) (tenant : String)
    (name image flavor : Json) (user_data : Option Json) :
    Except PyError Json × List OSRequest :=
  (get_from_response
     (app (OpenStackHelper.get_create_server_req tenant name image flavor
       none)) "server" (.obj []),
   [OpenStackHelper.get_create_server_req tenant name image flavor none])

/-- Modelled from the spec: a compute Resource as built by
`compute.ComputeResource(title=..., id=...)` (`ooi.occi.infrastructure.compute`
is not under src/).  Per §3 a Resource carries a title, an id and exactly
one Kind; the constructor used by the controller sets only title and id,
the kind being the compute kind. -/
structure ComputeResource : Type where
  title : Json
  id : Json
  kind : String := "compute"

/-- Modelled from the spec: `collection.Collection(resources=...)`
(`ooi.occi.core.collection` is not under src/).  Per §3 a Collection is an
ordered sequence of Resources with no deduplication. -/
structure Collection : Type where
  resources : List ComputeResource

/-- Modelled from the spec: the parser's generic intermediate
representation `{category, mixins, optional_mixins, attributes: name→raw
value, schemes: scheme→[term]}` (§4.2); the controller reads only the
`attributes` and `schemes` fields. -/
structure ParsedObj : Type where
  attributes : List (String × Json)
  schemes : List (String × List String)

/-- Modelled from the spec: the scheme URI of
`templates.OpenStackOSTemplate` (`ooi.openstack.templates` is not under
src/); only its identity matters to the controller. -/
def osTemplateScheme : String := "http://schemas.openstack.org/template/os#"

/-- Modelled from the spec: the scheme URI of
`templates.OpenStackResourceTemplate` (not under src/). -/
def resourceTemplateScheme : String :=
  "http://schemas.openstack.org/template/resource#"

/-- Modelled from the spec: the scheme URI of the
`contextualization.user_data` mixin (`ooi.openstack.contextualization` is
not under src/). -/
def userDataScheme : String :=
  "http://schemas.openstack.org/compute/instance#"

/-- Python `xs[0]`: `IndexError` on an empty list. -/
def pyFirst {α : Type} : List α → Except PyError α
  | [] => .error .indexError
  | x :: _ => .ok x

/-- Python `d[k]` on the schemes dict: `KeyError` when absent. -/
def schemesGetItem (schemes : List (String × List String)) (k : String) :
    Except PyError (List String) :=
  match lookupField schemes k with
  | none => .error .keyError
  | some v => .ok v

/-- Python `s[k]` on a JSON server object: `KeyError` when the key is
absent, `TypeError` when the value is not a dict. -/
def jsonGetItem (j : Json) (k : String) : Except PyError Json :=
  match j with
  | .obj fields =>
    match lookupField fields k with
    | some v => .ok v
    | none => .error .keyError
  | _ => .error .typeError

/-- Python `s[k] = v` on a JSON server object. -/
def jsonSetItem (j : Json) (k : String) (v : Json) : Except PyError Json :=
  match j with
  | .obj fields => .ok (.obj (setField fields k v))
  | _ => .error .typeError

/-- Iterating a JSON value as a list of servers; iterating anything but an
array is an error for the controller's purposes. -/
def jsonAsArr (j : Json) : Except PyError (List Json) :=
  match j with
  | .arr xs => .ok xs
  | _ => .error .typeError

/-- `Controller._get_compute_resources`: one
`ComputeResource(title=s["name"], id=s["id"])` per server, in order. -/
def Controller.get_compute_resources (servers : List Json) :
    Except PyError (List ComputeResource) :=
  match servers with
  | [] => .ok []
  | s :: rest =>
    match jsonGetItem s "name" with
    | .error e => .error e
    | .ok title =>
      match jsonGetItem s "id" with
      | .error e => .error e
      | .ok id =>
        match Controller.get_compute_resources rest with
        | .error e => .error e
        | .ok more => .ok (⟨title, id, "compute"⟩ :: more)

/-- `Controller.index`: list the tenant's servers and wrap them in a
Collection. -/
def Controller.index (app : App) (tenant : String) :
    Except PyError Collection :=
  match OpenStackHelper.index app tenant with
  | .error e => .error e
  | .ok servers =>
    match jsonAsArr servers with
    | .error e => .error e
    | .ok servers =>
      match Controller.get_compute_resources servers with
      | .error e => .error e
      | .ok occi_compute_resources => .ok ⟨occi_compute_resources⟩

/-- `Controller.create`: parse the representation, validate it against the
compute scheme, extract title/image/flavor/user_data, create the server
through the helper, patch its name into the returned object and wrap it in
a Collection.  The parser and validator are outside collaborators
(`req.get_parser()` and `occi_validator.Validator` are not under src/), so
the parse outcome and the validation function are parameters.  The second
component lists the backend requests issued. -/
def Controller.create (app : App) (tenant : String)
    (parseResult : Except PyError ParsedObj)
    (validate : ParsedObj → Except PyError Unit) :
    Except PyError Collection × List OSRequest :=
  match parseResult with
  | .error e => (.error e, [])
  | .ok obj =>
    match validate obj with
    | .error e => (.error e, [])
    | .ok _ =>
      match schemesGetItem obj.schemes osTemplateScheme with
      | .error e => (.error e, [])
      | .ok osTerms =>
        match pyFirst osTerms with
        | .error e => (.error e, [])
        | .ok image =>
          match schemesGetItem obj.schemes resourceTemplateScheme with
          | .error e => (.error e, [])
          | .ok resTerms =>
            match pyFirst resTerms with
            | .error e => (.error e, [])
            | .ok flavor =>
              match OpenStackHelper.create_server app tenant
                  ((lookupField obj.attributes "occi.core.title").getD
                    (.str "OCCI VM"))
                  (.str image) (.str flavor)
                  (if (lookupField obj.schemes userDataScheme).isSome then
                    lookupField obj.attributes
                      "org.openstack.compute.user_data"
                  else none) with
              | (.error e, calls) => (.error e, calls)
              | (.ok server, calls) =>
                match jsonSetItem server "name"
                    ((lookupField obj.attributes "occi.core.title").getD
                      (.str "OCCI VM")) with
                | .error e => (.error e, calls)
                | .ok server =>
                  match Controller.get_compute_resources [server] with
                  | .error e => (.error e, calls)
                  | .ok occi_compute_resources =>
                    (.ok ⟨occi_compute_resources⟩, calls)

/-- `Controller.run_action`: check the `action` query parameter against
the compute kind's action terms, parse the body, select the per-action
validation scheme, validate, then run the action through the helper.  The
compute action terms (`compute.ComputeResource.actions`, not under src/),
the parse outcome and the validator are parameters.  The second component
lists the backend requests issued. -/
def Controller.run_action (app : App) (tenant : String) (id : String)
    (actionParam : Option String) (occiActionTerms : List String)
    (parseResult : Except PyError ParsedObj)
    (validate : String → ParsedObj → Except PyError Unit) :
    Except PyError (List ComputeResource) × List OSRequest :=
  match actionParam with
  | none => (.error (.invalidAction none), [])
  | some action =>
    if action ∉ occiActionTerms then
      (.error (.invalidAction (some action)), [])
    else
      match parseResult with
      | .error e => (.error e, [])
      | .ok obj =>
        match (if action = "stop" then Except.ok "stop"
               else if action = "start" then Except.ok "start"
               else if action = "restart" then Except.ok "restart"
               else Except.error PyError.notImplementedError) with
        | .error e => (.error e, [])
        | .ok schemeCategory =>
          match validate schemeCategory obj with
          | .error e => (.error e, [])
          | .ok _ =>
            match OpenStackHelper.run_action app tenant action id with
            | (.error e, calls) => (.error e, calls)
            | (.ok _, calls) => (.ok [], calls)

/-- The native action body the spec claims for each supported action:
`{"os-stop": null}`, `{"os-start": null}`, `{"reboot": {"type": "SOFT"}}`. -/
def nativeActionBody (action : String) : Json :=
  if action = "stop" then .obj [("os-stop", .null)]
  else if action = "start" then .obj [("os-start", .null)]
  else .obj [("reboot", .obj [("type", .str "SOFT")])]

/-- The backend request the spec claims `run_action` issues: a POST to
`/<tenant>/servers/<server_id>/action` carrying the translated action. -/
def actionReq (tenant server_id action : String) : OSRequest :=
  ⟨"POST", "/" ++ tenant ++ "/servers/" ++ server_id ++ "/action",
   some (nativeActionBody action)⟩

/-- Whether the `server` object inside a request body has a field `k`;
used to state that `create_server` requests never carry `user_data`. -/
def serverBodyHas (r : OSRequest) (k : String) : Bool :=
  match r.body with
  | some (.obj fields) =>
    match lookupField fields "server" with
    | some (.obj sfields) => (lookupField sfields k).isSome
    | _ => false
  | _ => false

/-- A sample validator that rejects exactly the representations carrying
no attributes and accepts every other one; it exercises a validation
failure on one specific representation while others would pass. -/
def rejectEmptyAttributes (obj : ParsedObj) : Except PyError Unit :=
  match obj.attributes with
  | [] => .error .keyError
  | _ => .ok ()

/-! ## Helper lemmas -/

/-- After `d[k] = v`, looking up `k` yields `v`. -/
theorem lookupField_setField_self (fields : List (String × Json))
    (k : String) (v : Json) :
    lookupField (setField fields k v) k = some v := by
  induction fields with
  | nil => simp [setField, lookupField]
  | cons p rest ih =>
    obtain ⟨pk, pv⟩ := p
    by_cases hk : pk = k
    · subst hk
      simp [setField, lookupField]
    · simp [setField, hk, lookupField, ih]

/-- After `d[k] = v`, looking up any other key is unchanged. -/
theorem lookupField_setField_ne (fields : List (String × Json))
    (k : String) (v : Json) (k' : String) (h : k' ≠ k) :
    lookupField (setField fields k v) k' = lookupField fields k' := by
  have h' : ¬k = k' := fun he => h he.symm
  induction fields with
  | nil => simp [setField, lookupField, h']
  | cons p rest ih =>
    obtain ⟨pk, pv⟩ := p
    by_cases hk : pk = k
    · subst hk
      simp [setField, lookupField, h']
    · simp [setField, hk, lookupField, ih]

/-! ## Claims about the error-translation helpers -/

/-- Claim C2: whenever a fault message can be extracted from the backend
response, `exception_from_response` returns the exception class mapped
from the response's status code carrying that message as explanation, and
when the status code has no entry in the mapping table the generic
`HTTPInternalServerError` is returned with that message instead of the
translation failing. -/
theorem exception_mapping_total (r : Response) (msg : Option Json)
    (h : faultMessage r = .ok msg) :
    exception_from_response r =
      ⟨(lookupStatus statusExceptionMap r.status_int).getD
        .HTTPInternalServerError, msg⟩ ∧
    (lookupStatus statusExceptionMap r.status_int = none →
      exception_from_response r = ⟨.HTTPInternalServerError, msg⟩) := by
  unfold exception_from_response
  rw [h]
  exact ⟨rfl, fun hn => by rw [hn]; rfl⟩

/-- Witness for C2 at a response with status 418 (unmapped) and fault
body `{"f": {"message": "boom"}}`. -/
theorem exception_mapping_total_witness :
    exception_from_response
      ⟨418, .ok (.obj [("f", .obj [("message", .str "boom")])])⟩ =
      ⟨.HTTPInternalServerError, some (.str "boom")⟩ :=
  (exception_mapping_total
    ⟨418, .ok (.obj [("f", .obj [("message", .str "boom")])])⟩
    (some (.str "boom")) rfl).2 rfl

/-- Claim C3: a backend failure with status 404 whose JSON fault body
carries a given message is translated to `HTTPNotFound` with exactly that
message as explanation. -/
theorem backend_404_maps_to_not_found (r : Response) (m : String)
    (h4 : r.status_int = 404)
    (hm : faultMessage r = .ok (some (.str m))) :
    exception_from_response r = ⟨.HTTPNotFound, some (.str m)⟩ := by
  unfold exception_from_response
  rw [hm, h4]
  rfl

/-- Witness for C3 at the fault body
`{"computeFault": {"message": "Instance could not be found", "code": 404}}`. -/
theorem backend_404_maps_to_not_found_witness :
    exception_from_response ⟨404, .ok (.obj [("computeFault",
      .obj [("message", .str "Instance could not be found"),
            ("code", .num 404)])])⟩ =
      ⟨.HTTPNotFound, some (.str "Instance could not be found")⟩ :=
  backend_404_maps_to_not_found
    ⟨404, .ok (.obj [("computeFault",
      .obj [("message", .str "Instance could not be found"),
            ("code", .num 404)])])⟩
    "Instance could not be found" rfl rfl

/-- Claim C10: when the fault message cannot be extracted from the
response body, `exception_from_response` returns the bare
`HTTPInternalServerError` whatever the status code, so the original
status (e.g. 404) is not preserved. -/
theorem unparseable_fault_degrades_to_500 (r : Response)
    (h : faultMessage r = .error ()) :
    exception_from_response r = ⟨.HTTPInternalServerError, none⟩ := by
  unfold exception_from_response
  rw [h]

/-- Witness for C10 at a 404 response whose body is not valid JSON: the
result is the internal error, not `HTTPNotFound`. -/
theorem unparseable_fault_degrades_to_500_witness :
    exception_from_response ⟨404, .error ()⟩ =
      ⟨.HTTPInternalServerError, none⟩ :=
  unparseable_fault_degrades_to_500 ⟨404, .error ()⟩ rfl

/-- Claim C6: `get_from_response` returns the requested element of the
JSON body (with the default when absent) exactly on statuses 200, 201 and
202, and raises the exception derived from the response on every other
status. -/
theorem get_from_response_spec (r : Response) (element : String)
    (default : Json) :
    (∀ fields, r.json_body = .ok (.obj fields) →
      (r.status_int = 200 ∨ r.status_int = 201 ∨ r.status_int = 202) →
      get_from_response r element default =
        .ok ((lookupField fields element).getD default)) ∧
    (¬(r.status_int = 200 ∨ r.status_int = 201 ∨ r.status_int = 202) →
      get_from_response r element default =
        .error (.webobExc (exception_from_response r))) := by
  constructor
  · intro fields hb hs
    unfold get_from_response
    rw [if_pos hs, hb]
  · intro hs
    unfold get_from_response
    rw [if_neg hs]

/-- Witness for C6: a 200 response yields the element, a 500 response
raises the derived exception. -/
theorem get_from_response_spec_witness :
    get_from_response ⟨200, .ok (.obj [("x", .str "v")])⟩ "x" .null =
      .ok (.str "v") ∧
    get_from_response ⟨500, .ok (.obj [("x", .str "v")])⟩ "x" .null =
      .error (.webobExc (exception_from_response
        ⟨500, .ok (.obj [("x", .str "v")])⟩)) :=
  ⟨(get_from_response_spec ⟨200, .ok (.obj [("x", .str "v")])⟩ "x" .null).1
     [("x", .str "v")] rfl (Or.inl rfl),
   (get_from_response_spec ⟨500, .ok (.obj [("x", .str "v")])⟩ "x" .null).2
     (by decide)⟩

/-! ## Claims about the helper operations -/

/-- Claim C5: for each action among stop, start and restart,
`OpenStackHelper.run_action` issues exactly one POST to
`/<tenant>/servers/<server_id>/action` whose body is the translated native
action, succeeds exactly when the backend answers 202, and raises the
mapped exception on every other status. -/
theorem run_action_spec (app : App) (tenant server_id action : String)
    (h : action = "stop" ∨ action = "start" ∨ action = "restart") :
    (OpenStackHelper.run_action app tenant action server_id).2 =
      [actionReq tenant server_id action] ∧
    ((OpenStackHelper.run_action app tenant action server_id).1 = .ok () ↔
      (app (actionReq tenant server_id action)).status_int = 202) ∧
    ((app (actionReq tenant server_id action)).status_int ≠ 202 →
      (OpenStackHelper.run_action app tenant action server_id).1 =
        .error (.webobExc
          (exception_from_response
            (app (actionReq tenant server_id action))))) := by
  have hreq : OpenStackHelper.get_run_action_req tenant action server_id =
      .ok (actionReq tenant server_id action) := by
    rcases h with h | h | h <;> subst h <;> rfl
  unfold OpenStackHelper.run_action
  rw [hreq]
  refine ⟨rfl, ?_, ?_⟩
  · by_cases hs : (app (actionReq tenant server_id action)).status_int = 202
    · simp [hs]
    · simp [hs]
  · intro hs
    simp [hs]

/-- Witness for C5 at action `stop` against a backend answering 202. -/
theorem run_action_spec_witness :
    (OpenStackHelper.run_action (fun _ => ⟨202, .error ()⟩) "t" "stop"
      "s1").1 = .ok () :=
  ((run_action_spec (fun _ => ⟨202, .error ()⟩) "t" "s1" "stop"
    (Or.inl rfl)).2.1).mpr rfl

/-- Claim C9: every backend request issued by
`OpenStackHelper.create_server` lacks a `user_data` field in its `server`
body, whatever `user_data` argument was passed: the source hands
`user_data=None` to `_get_create_server_req` unconditionally. -/
theorem create_server_omits_user_data (app : App) (tenant : String)
    (name image flavor : Json) (user_data : Option Json) (r : OSRequest)
    (hr : r ∈ (OpenStackHelper.create_server app tenant name image flavor
      user_data).2) :
    serverBodyHas r "user_data" = false := by
  have hr' : r = OpenStackHelper.get_create_server_req tenant name image
      flavor none := List.mem_singleton.mp hr
  subst hr'
  rfl

/-- Witness for C9: the single request issued for a create call that did
pass user data carries no `user_data` field. -/
theorem create_server_omits_user_data_witness :
    serverBodyHas
      ⟨"POST", "/t/servers", some (.obj [("server",
        .obj [("name", .str "n"), ("imageRef", .str "i"),
              ("flavorRef", .str "f")])])⟩ "user_data" = false :=
  create_server_omits_user_data (fun _ => ⟨200, .error ()⟩) "t"
    (.str "n") (.str "i") (.str "f") (some (.str "ud")) _
    (List.mem_singleton.mpr rfl)

/-! ## Claims about the controller -/

/-- When `_get_compute_resources` succeeds it yields one resource per
server, in order, with that server's `name` as title and `id` as id, and
the compute kind. -/
theorem get_compute_resources_ok (servers : List Json)
    (rs : List ComputeResource)
    (h : Controller.get_compute_resources servers = .ok rs) :
    rs.length = servers.length ∧
    ∀ k (hk : k < servers.length) (hk' : k < rs.length),
      jsonGetItem (servers.get ⟨k, hk⟩) "name" =
        .ok (rs.get ⟨k, hk'⟩).title ∧
      jsonGetItem (servers.get ⟨k, hk⟩) "id" =
        .ok (rs.get ⟨k, hk'⟩).id ∧
      (rs.get ⟨k, hk'⟩).kind = "compute" := by
  induction servers generalizing rs with
  | nil =>
    unfold Controller.get_compute_resources at h
    cases h
    exact ⟨rfl, fun k hk _ => absurd hk (Nat.not_lt_zero k)⟩
  | cons s rest ih =>
    unfold Controller.get_compute_resources at h
    cases hname : jsonGetItem s "name" with
    | error e => rw [hname] at h; cases h
    | ok title =>
      rw [hname] at h
      cases hid : jsonGetItem s "id" with
      | error e => rw [hid] at h; cases h
      | ok id =>
        rw [hid] at h
        cases hrest : Controller.get_compute_resources rest with
        | error e => rw [hrest] at h; cases h
        | ok more =>
          rw [hrest] at h
          cases h
          obtain ⟨hlen, hall⟩ := ih more hrest
          refine ⟨by simp [hlen], ?_⟩
          intro k hk hk'
          cases k with
          | zero => exact ⟨hname, hid, rfl⟩
          | succ k =>
            exact hall k (Nat.lt_of_succ_lt_succ hk)
              (Nat.lt_of_succ_lt_succ hk')

/-- Claim C7: when the backend index call yields a list of servers,
`Controller.index` returns a Collection holding, in the same order and
with no deduplication, one compute Resource per server, titled with that
server's `name` and identified by that server's `id`. -/
theorem index_resources_match_servers (app : App) (tenant : String)
    (servers : List Json) (col : Collection)
    (hidx : OpenStackHelper.index app tenant = .ok (.arr servers))
    (hcol : Controller.index app tenant = .ok col) :
    col.resources.length = servers.length ∧
    ∀ k (hk : k < servers.length) (hk' : k < col.resources.length),
      jsonGetItem (servers.get ⟨k, hk⟩) "name" =
        .ok (col.resources.get ⟨k, hk'⟩).title ∧
      jsonGetItem (servers.get ⟨k, hk⟩) "id" =
        .ok (col.resources.get ⟨k, hk'⟩).id ∧
      (col.resources.get ⟨k, hk'⟩).kind = "compute" := by
  unfold Controller.index at hcol
  rw [hidx] at hcol
  have hcol' : (match Controller.get_compute_resources servers with
      | .error e => (.error e : Except PyError Collection)
      | .ok rs => .ok ⟨rs⟩) = .ok col := hcol
  cases hg : Controller.get_compute_resources servers with
  | error e => rw [hg] at hcol'; cases hcol'
  | ok rs =>
    rw [hg] at hcol'
    cases hcol'
    exact get_compute_resources_ok servers rs hg

/-- Witness for C7: two servers produce two resources with matching
titles and ids. -/
theorem index_resources_match_servers_witness :
    ([⟨.str "a", .str "1", "compute"⟩, ⟨.str "b", .str "2", "compute"⟩] :
      List ComputeResource).length =
      ([.obj [("name", .str "a"), ("id", .str "1")],
        .obj [("name", .str "b"), ("id", .str "2")]] : List Json).length :=
  (index_resources_match_servers
    (fun _ => ⟨200, .ok (.obj [("servers",
      .arr [.obj [("name", .str "a"), ("id", .str "1")],
            .obj [("name", .str "b"), ("id", .str "2")]])])⟩)
    "t"
    [.obj [("name", .str "a"), ("id", .str "1")],
     .obj [("name", .str "b"), ("id", .str "2")]]
    ⟨[⟨.str "a", .str "1", "compute"⟩, ⟨.str "b", .str "2", "compute"⟩]⟩
    rfl rfl).1

/-- Claim C8: `Controller.run_action` answers `InvalidAction` whenever the
`action` query parameter is absent or not among the compute kind's action
terms; the resulting pair is a constant — independent of the parse
outcome, so the check precedes body parsing — and its call list is
empty. -/
theorem run_action_rejects_invalid_action (app : App) (tenant id : String)
    (actionParam : Option String) (occiActionTerms : List String)
    (parseResult : Except PyError ParsedObj)
    (validate : String → ParsedObj → Except PyError Unit)
    (h : actionParam = none ∨
      ∃ a, actionParam = some a ∧ a ∉ occiActionTerms) :
    Controller.run_action app tenant id actionParam occiActionTerms
      parseResult validate = (.error (.invalidAction actionParam), []) := by
  rcases h with h | ⟨a, ha, hmem⟩
  · subst h
    rfl
  · subst ha
    simp [Controller.run_action, hmem]

/-- Witness for C8 at the unsupported action `destroy`, with a parse
outcome that would itself fail: the dispatch error wins. -/
theorem run_action_rejects_invalid_action_witness :
    Controller.run_action (fun _ => ⟨202, .error ()⟩) "t" "s1"
      (some "destroy") ["start", "stop", "restart"] (.error .keyError)
      (fun _ _ => .ok ()) =
      (.error (.invalidAction (some "destroy")), []) :=
  run_action_rejects_invalid_action (fun _ => ⟨202, .error ()⟩) "t" "s1"
    (some "destroy") ["start", "stop", "restart"] (.error .keyError)
    (fun _ _ => .ok ())
    (Or.inr ⟨"destroy", rfl, by decide⟩)

/-- Claim C4: parser and validator failures are atomic with respect to
the backend.  If parsing raises, neither `Controller.create` nor
`Controller.run_action` issues any backend call; and if parsing yields a
representation on which the validator raises — for `run_action`, raises
against the scheme selected for the request's own action — the request
aborts with an empty call list too. -/
theorem parse_validate_failures_issue_no_backend_call (app : App)
    (tenant id : String) (actionParam : Option String)
    (occiActionTerms : List String)
    (parseResult : Except PyError ParsedObj)
    (validateC : ParsedObj → Except PyError Unit)
    (validateA : String → ParsedObj → Except PyError Unit) :
    ((∃ e, parseResult = .error e) →
      (Controller.create app tenant parseResult validateC).2 = [] ∧
      (Controller.run_action app tenant id actionParam occiActionTerms
        parseResult validateA).2 = []) ∧
    (∀ obj, parseResult = .ok obj →
      ((∃ e, validateC obj = .error e) →
        (Controller.create app tenant parseResult validateC).2 = []) ∧
      ((∀ a, actionParam = some a → ∃ e, validateA a obj = .error e) →
        (Controller.run_action app tenant id actionParam occiActionTerms
          parseResult validateA).2 = [])) := by
  constructor
  · rintro ⟨e, he⟩
    subst he
    refine ⟨rfl, ?_⟩
    cases actionParam with
    | none => rfl
    | some a =>
      by_cases hm : a ∈ occiActionTerms
      · simp [Controller.run_action, hm]
      · simp [Controller.run_action, hm]
  · rintro obj rfl
    constructor
    · rintro ⟨e, he⟩
      simp [Controller.create, he]
    · intro hA
      cases actionParam with
      | none => rfl
      | some a =>
        obtain ⟨e, he⟩ := hA a rfl
        by_cases hm : a ∈ occiActionTerms
        · by_cases h1 : a = "stop"
          · subst h1
            simp [Controller.run_action, hm, he]
          · by_cases h2 : a = "start"
            · subst h2
              simp [Controller.run_action, hm, h1, he]
            · by_cases h3 : a = "restart"
              · subst h3
                simp [Controller.run_action, hm, h1, h2, he]
              · simp [Controller.run_action, hm, h1, h2, h3]
        · simp [Controller.run_action, hm]

/-- Witness for C4: a failing parse issues no backend call on either
path, and a representation rejected by the validator — here one with no
attributes, which `rejectEmptyAttributes` alone rejects — issues no
backend call from either controller. -/
theorem parse_validate_failures_issue_no_backend_call_witness :
    (Controller.create (fun _ => ⟨200, .error ()⟩) "t"
      (.error .typeError) rejectEmptyAttributes).2 = [] ∧
    (Controller.create (fun _ => ⟨200, .error ()⟩) "t" (.ok ⟨[], []⟩)
      rejectEmptyAttributes).2 = [] ∧
    (Controller.run_action (fun _ => ⟨200, .error ()⟩) "t" "s1"
      (some "stop") ["start", "stop", "restart"] (.ok ⟨[], []⟩)
      (fun _ => rejectEmptyAttributes)).2 = [] := by
  refine ⟨?_, ?_, ?_⟩
  · exact ((parse_validate_failures_issue_no_backend_call
      (fun _ => ⟨200, .error ()⟩) "t" "s1" (some "stop")
      ["start", "stop", "restart"] (.error .typeError)
      rejectEmptyAttributes (fun _ => rejectEmptyAttributes)).1
      ⟨.typeError, rfl⟩).1
  · exact ((parse_validate_failures_issue_no_backend_call
      (fun _ => ⟨200, .error ()⟩) "t" "s1" (some "stop")
      ["start", "stop", "restart"] (.ok ⟨[], []⟩)
      rejectEmptyAttributes (fun _ => rejectEmptyAttributes)).2
      ⟨[], []⟩ rfl).1 ⟨.keyError, rfl⟩
  · refine ((parse_validate_failures_issue_no_backend_call
      (fun _ => ⟨200, .error ()⟩) "t" "s1" (some "stop")
      ["start", "stop", "restart"] (.ok ⟨[], []⟩)
      rejectEmptyAttributes (fun _ => rejectEmptyAttributes)).2
      ⟨[], []⟩ rfl).2 ?_
    intro a ha
    injection ha with h
    subst h
    exact ⟨.keyError, rfl⟩

/-- When the backend answers a create request with a 2xx status and a
JSON object carrying a `server` object, `create_server` returns that
object, whatever user data was passed. -/
theorem create_server_ok (app : App) (tenant : String)
    (name image flavor : Json) (resp : Response)
    (bfields sfields : List (String × Json))
    (hresp : app (OpenStackHelper.get_create_server_req tenant name image
      flavor none) = resp)
    (hstat : resp.status_int = 200 ∨ resp.status_int = 201 ∨
      resp.status_int = 202)
    (hbody : resp.json_body = .ok (.obj bfields))
    (hserver : lookupField bfields "server" = some (.obj sfields)) :
    ∀ user_data,
      OpenStackHelper.create_server app tenant name image flavor
        user_data =
      (.ok (.obj sfields),
       [OpenStackHelper.get_create_server_req tenant name image flavor
         none]) := by
  intro user_data
  have hget : get_from_response resp "server" (.obj []) =
      .ok (.obj sfields) := by
    unfold get_from_response
    rw [if_pos hstat, hbody]
    simp [hserver]
  unfold OpenStackHelper.create_server
  rw [hresp, hget]

/-- Claim C1: a create request that passes validation and declares an
OS-template mixin, a resource-template mixin and `occi.core.title`
produces a Collection holding exactly one compute Resource whose title is
the supplied `occi.core.title` value and whose id is the identifier
carried in the backend's create response. -/
theorem create_end_to_end (app : App) (tenant : String) (obj : ParsedObj)
    (validate : ParsedObj → Except PyError Unit) (title : Json)
    (image flavor : String) (imgRest flvRest : List String)
    (resp : Response) (bfields sfields : List (String × Json)) (sid : Json)
    (hv : validate obj = .ok ())
    (htitle : lookupField obj.attributes "occi.core.title" = some title)
    (himg : lookupField obj.schemes osTemplateScheme =
      some (image :: imgRest))
    (hflv : lookupField obj.schemes resourceTemplateScheme =
      some (flavor :: flvRest))
    (hresp : app (OpenStackHelper.get_create_server_req tenant title
      (.str image) (.str flavor) none) = resp)
    (hstat : resp.status_int = 200 ∨ resp.status_int = 201 ∨
      resp.status_int = 202)
    (hbody : resp.json_body = .ok (.obj bfields))
    (hserver : lookupField bfields "server" = some (.obj sfields))
    (hsid : lookupField sfields "id" = some sid) :
    (Controller.create app tenant (.ok obj) validate).1 =
      .ok ⟨[⟨title, sid, "compute"⟩]⟩ := by
  have hcs := create_server_ok app tenant title (.str image) (.str flavor)
    resp bfields sfields hresp hstat hbody hserver
  have hname : lookupField (setField sfields "name" title) "name" =
      some title := lookupField_setField_self sfields "name" title
  have hid : lookupField (setField sfields "name" title) "id" =
      lookupField sfields "id" :=
    lookupField_setField_ne sfields "name" title "id" (by decide)
  simp [Controller.create, hv, schemesGetItem, himg, hflv, htitle, pyFirst,
    hcs, jsonSetItem, Controller.get_compute_resources, jsonGetItem, hname,
    hid, hsid]

/-- Witness for C1: a fully concrete create request with title `myvm`
against a backend returning server id `sid-1`. -/
theorem create_end_to_end_witness :
    (Controller.create
      (fun _ => ⟨200, .ok (.obj [("server", .obj [("id", .str "sid-1")])])⟩)
      "t"
      (.ok ⟨[("occi.core.title", .str "myvm")],
            [(osTemplateScheme, ["img-1"]),
             (resourceTemplateScheme, ["flv-1"])]⟩)
      (fun _ => .ok ())).1 =
      .ok ⟨[⟨.str "myvm", .str "sid-1", "compute"⟩]⟩ :=
  create_end_to_end
    (fun _ => ⟨200, .ok (.obj [("server", .obj [("id", .str "sid-1")])])⟩)
    "t"
    ⟨[("occi.core.title", .str "myvm")],
     [(osTemplateScheme, ["img-1"]), (resourceTemplateScheme, ["flv-1"])]⟩
    (fun _ => .ok ()) (.str "myvm") "img-1" "flv-1" [] []
    ⟨200, .ok (.obj [("server", .obj [("id", .str "sid-1")])])⟩
    [("server", .obj [("id", .str "sid-1")])] [("id", .str "sid-1")]
    (.str "sid-1")
    rfl rfl rfl rfl rfl (Or.inl rfl) rfl rfl rfl
